import Mathlib

/-!
Verification development for the `agentic_rag_system` variant of the
repository: a shallow embedding of the conversation handler
(`core/conversation.py`), the text splitter (`core/vector_store.py`),
and the query-routing state machine (`core/agent_graph.py`), together
with theorems settling the frozen specification claims.

Conventions of the embedding:
* Python strings are Lean `String`s (character lists for the splitter);
  `str.lower`/`str.upper` use `Char.toLower`/`Char.toUpper`, faithful on
  the ASCII text the heuristics inspect.
* Python float scores/thresholds are rationals (`ℚ`); every use in the
  source is an order comparison, which ℚ models exactly.
* Python dictionaries with optional keys become structures with `Option`
  fields; `d.get(k, v)` becomes `Option.getD`.
* A call into an external collaborator (LLM server, vector store) is an
  `Option`-valued outcome supplied by an adversarial environment:
  `some r` models a normal return, `none` models a raised exception.
-/

/-! ## Python string primitives -/

/-- The ASCII whitespace characters recognised by Python's `str.strip()`
and `str.split()` (space, tab, newline, vertical tab, form feed,
carriage return). -/
def pyWhitespace : List Char := [' ', '\t', '\n', '\x0b', '\x0c', '\r']

def isPyWs (c : Char) : Bool := pyWhitespace.contains c

/-- `needle` occurs at the start of `hay` (Python `str.startswith`). -/
def listStarts : List Char → List Char → Bool
  | [], _ => true
  | _ :: _, [] => false
  | a :: as, b :: bs => a == b && listStarts as bs

/-- `needle` occurs contiguously inside `hay` (Python `needle in hay`).
The empty needle occurs in every string, as in Python. -/
def containsSub (needle : List Char) : List Char → Bool
  | [] => needle.isEmpty
  | b :: bs => listStarts needle (b :: bs) || containsSub needle bs

/-- Python `str.strip()`: drop leading and trailing whitespace. -/
def stripChars (l : List Char) : List Char :=
  ((l.dropWhile isPyWs).reverse.dropWhile isPyWs).reverse

/-- Python `str.split()` with no separator: split on whitespace runs,
producing no empty words.  `acc` carries the current word, reversed. -/
def splitWsAux (acc : List Char) : List Char → List (List Char)
  | [] => if acc = [] then [] else [acc.reverse]
  | c :: cs =>
    if isPyWs c then
      if acc = [] then splitWsAux [] cs else acc.reverse :: splitWsAux [] cs
    else splitWsAux (c :: acc) cs

/-- Python `str.split(sep)` for a one-character separator: empty parts
are kept, and the empty string splits to `[""]`. -/
def splitOnChar (sep : Char) : List Char → List (List Char)
  | [] => [[]]
  | c :: cs =>
    if c == sep then [] :: splitOnChar sep cs
    else
      match splitOnChar sep cs with
      | [] => [[c]]
      | h :: t => (c :: h) :: t

theorem listStarts_length {n h : List Char} (hs : listStarts n h = true) :
    n.length ≤ h.length := by
  induction n generalizing h with
  | nil => simp
  | cons a as ih =>
    cases h with
    | nil => simp [listStarts] at hs
    | cons b bs =>
      simp only [listStarts, Bool.and_eq_true] at hs
      simpa using ih hs.2

/-- Python `hay.replace(needle, repl)`: replace every occurrence.  As in
Python, an empty needle interleaves `repl` between all characters. -/
def replChars (needle repl : List Char) : List Char → List Char
  | [] => if needle.isEmpty then repl else []
  | c :: cs =>
    if hne : needle.isEmpty then repl ++ c :: replChars needle repl cs
    else if hp : listStarts needle (c :: cs) then
      repl ++ replChars needle repl ((c :: cs).drop needle.length)
    else c :: replChars needle repl cs
  termination_by l => l.length
  decreasing_by
    all_goals simp only [List.length_cons, List.length_drop]
    all_goals first
      | omega
      | (have h1 := listStarts_length hp
         have h2 : 1 ≤ needle.length := by
           cases needle with
           | nil => simp at hne
           | cons _ _ => simp
         simp only [List.length_cons] at h1
         omega)

/-- Python's `", ".join(parts)`. -/
def joinSep (sep : String) : List String → String
  | [] => ""
  | [x] => x
  | x :: y :: t => x ++ sep ++ joinSep sep (y :: t)

def pyLower (s : String) : String := ⟨s.data.map Char.toLower⟩

def pyUpper (s : String) : String := ⟨s.data.map Char.toUpper⟩

def pyIn (needle hay : String) : Bool := containsSub needle.data hay.data

def pyStartsWith (pre s : String) : Bool := listStarts pre.data s.data

def pyStrip (s : String) : String := ⟨stripChars s.data⟩

def pySplitWs (s : String) : List String :=
  (splitWsAux [] s.data).map (fun l => ⟨l⟩)

def pySplitOn (sep : Char) (s : String) : List String :=
  (splitOnChar sep s.data).map (fun l => ⟨l⟩)

def pyReplace (s needle repl : String) : String :=
  ⟨replChars needle.data repl.data s.data⟩

/-- Python's `lst[-n:]` for `n > 0`: the last `n` elements (all of them
when the list is shorter). -/
def lastN (n : Nat) (l : List α) : List α := (l.reverse.take n).reverse

/-- Python's `lst[-n:]` for an arbitrary `n : Nat`.  Crucially,
`lst[-0:]` is `lst[0:]`, the whole list — not the empty list. -/
def pyTail (n : Nat) (l : List α) : List α :=
  if n = 0 then l else lastN n l

/-! ## Conversation handler (`core/conversation.py`) -/

/-- One conversation turn, as built by `ConversationHandler.add_message`:
role, content, timestamp and a metadata dictionary. -/
structure Msg where
  role : String
  content : String
  timestamp : String
  metadata : List (String × String)
deriving DecidableEq, Repr

/-- `ConversationHandler.add_message`: append the new message, then —
when the history exceeds `max_history * 2` entries — keep only
`conversation_history[-(max_history * 2):]`.  (For `max_history = 0`
that Python slice is `[-0:]`, i.e. the whole list.) -/
def addMessage (maxHistory : Nat) (history : List Msg) (m : Msg) : List Msg :=
  let h := history ++ [m]
  if h.length > maxHistory * 2 then pyTail (maxHistory * 2) h else h

/-- `ConversationHandler.get_conversation_context`: render the last 6
turns (`history[-6:]`) as `ROLE: content` lines joined by newlines;
empty string for an empty history. -/
def getConversationContext (history : List Msg) : String :=
  if history = [] then ""
  else joinSep "\n"
    ((pyTail 6 history).map (fun m => pyUpper m.role ++ ": " ++ m.content))

/-- `ConversationHandler.get_recent_user_queries`: content of the last
`count` user-authored turns (`user_messages[-count:]`). -/
def recentUserQueries (count : Nat) (history : List Msg) : List String :=
  pyTail count ((history.filter (fun m => m.role == "user")).map Msg.content)

def followUpIndicators : List String :=
  ["also", "additionally", "furthermore", "moreover", "besides",
   "what about", "how about", "can you also", "tell me more",
   "explain further", "elaborate", "continue", "more details"]

def contextPronouns : List String :=
  ["it", "this", "that", "they", "them", "these", "those"]

/-- `ConversationHandler.is_follow_up_question`: false on an empty
history; otherwise true when the lowercased query contains a follow-up
indicator phrase, or a context pronoun surrounded by spaces. -/
def isFollowUp (history : List Msg) (query : String) : Bool :=
  if history = [] then false
  else
    let ql := pyLower query
    followUpIndicators.any (fun p => pyIn p ql) ||
      contextPronouns.any
        (fun p => pyIn (" " ++ p ++ " ") (" " ++ ql ++ " "))

/-- The part of the `ConversationHandler` state that
`export_conversation` / `import_conversation` exchange. -/
structure ConvState where
  sessionId : String
  history : List Msg
  contextMemory : List (String × String)
deriving DecidableEq, Repr

/-- The dictionary produced by `export_conversation`.  Fields are
`Option`s because `import_conversation` reads each key with
`data.get(key, default)`. -/
structure ExportData where
  sessionId : Option String
  history : Option (List Msg)
  contextMemory : Option (List (String × String))
  createdAt : String
deriving DecidableEq, Repr

/-- `ConversationHandler.export_conversation`: a dictionary holding the
session id, history, context memory, and an export timestamp. -/
def exportConversation (s : ConvState) (now : String) : ExportData :=
  { sessionId := some s.sessionId
    history := some s.history
    contextMemory := some s.contextMemory
    createdAt := now }

/-- `ConversationHandler.import_conversation`: overwrite the session id
(defaulting to the current one), history (defaulting to `[]`) and
context memory (defaulting to `{}`) from the data, returning `True`. -/
def importConversation (s : ConvState) (d : ExportData) : ConvState × Bool :=
  ({ sessionId := d.sessionId.getD s.sessionId
     history := d.history.getD []
     contextMemory := d.contextMemory.getD [] }, true)

/-! ## Text splitter (`VectorStore._split_text` in `core/vector_store.py`) -/

/-- `text[i]` for an in-range scan index (the source only indexes inside
the bounds established by `end < len(text)`). -/
def charAt (l : List Char) (i : Nat) : Char := l.getD i (Char.ofNat 0)

/-- The backward scan
`for i in range(end, max(start + chunk_size // 2, end - 200), -1)`:
from `i` down to `stop + 1`, return `some (i + 1)` at the first sentence
terminator followed by space/newline/tab, or at a newline; `none` when
the range is exhausted (`best_break` then stays `end`). -/
def scanBreak (text : List Char) (stop : Nat) : Nat → Option Nat
  | i =>
    if i ≤ stop then none
    else
      let c := charAt text i
      if c == '.' || c == '!' || c == '?' then
        if i + 1 < text.length &&
            (charAt text (i + 1) == ' ' || charAt text (i + 1) == '\n' ||
             charAt text (i + 1) == '\t') then
          some (i + 1)
        else scanBreak text stop (i - 1)
      else if c == '\n' then some (i + 1)
      else scanBreak text stop (i - 1)
  termination_by i => i
  decreasing_by all_goals omega

/-- The `chunk = text[start:end].strip(); if chunk: chunks.append(chunk)`
step of `_split_text`: the stripped window slice, emitted only when
non-empty. -/
def loopChunk (text : List Char) (start bestEnd : Nat) : List (List Char) :=
  let chunk := stripChars ((text.drop start).take (bestEnd - start))
  if chunk = [] then [] else [chunk]

/-- The window end for one loop round: `end = start + chunk_size`,
adjusted backward to a sentence/paragraph boundary (`best_break`) when
the raw window stops short of the end of the text. -/
def bestEndFor (text : List Char) (chunkSize start : Nat) : Nat :=
  let e0 := start + chunkSize
  if e0 < text.length then
    (scanBreak text (max (start + chunkSize / 2) (e0 - 200)) e0).getD e0
  else e0

/-- One round of `_split_text`'s `while start < len(text)` loop: compute
the window end, emit the stripped slice when non-empty, stop when the
window reached the end, and otherwise continue from
`max(start + 1, end - chunk_overlap)`. -/
def splitLoop (text : List Char) (chunkSize chunkOverlap : Nat) :
    Nat → List (List Char)
  | start =>
    if h : start < text.length then
      let bestEnd := bestEndFor text chunkSize start
      if bestEnd ≥ text.length then loopChunk text start bestEnd
      else loopChunk text start bestEnd ++
        splitLoop text chunkSize chunkOverlap
          (max (start + 1) (bestEnd - chunkOverlap))
    else []
  termination_by start => text.length - start
  decreasing_by omega

/-- `VectorStore._split_text`: texts no longer than `chunk_size` are
returned whole (as a single chunk); longer texts go through the
boundary-seeking window loop. -/
def splitText (text : List Char) (chunkSize chunkOverlap : Nat) :
    List (List Char) :=
  if text.length ≤ chunkSize then [text]
  else splitLoop text chunkSize chunkOverlap 0

/-! ## Retrieved documents and configuration -/

/-- The metadata dictionary attached to a retrieved chunk; the router
reads only `metadata.get("source", ...)`. -/
structure DocMeta where
  source : Option String
deriving DecidableEq, Repr

/-- One entry of the list `VectorStore.similarity_search` returns:
`{"document": ..., "metadata": ..., "distance": ...}`.  `distance` is an
`Option` because the router reads it defensively with `doc.get`. -/
structure RDoc where
  document : String
  metadata : DocMeta
  distance : Option ℚ
deriving DecidableEq, Repr

/-- `Config.SIMILARITY_THRESHOLD` (default `0.7`). -/
def SIMILARITY_THRESHOLD : ℚ := 7/10

/-- `AgentGraph.MIN_QUERY_WORDS`. -/
def MIN_QUERY_WORDS : Nat := 2

/-! ## Query analysis (`AgentGraph._analyze_query` / `_parse_query_analysis`) -/

structure QueryAnalysis where
  intent : String
  clarity : String
  contextNeeded : Bool
  keyTerms : List String
  searchStrategy : String
deriving DecidableEq, Repr

def defaultParsedAnalysis : QueryAnalysis :=
  { intent := "general_question", clarity := "CLEAR", contextNeeded := false,
    keyTerms := [], searchStrategy := "similarity_search" }

/-- One line of `_parse_query_analysis`'s loop over
`analysis_text.split('\n')`. -/
def parseAnalysisLine (a : QueryAnalysis) (line : String) : QueryAnalysis :=
  if pyStartsWith "INTENT:" line then
    { a with intent := pyStrip (pyReplace line "INTENT:" "") }
  else if pyStartsWith "CLARITY:" line then
    { a with clarity := pyStrip (pyReplace line "CLARITY:" "") }
  else if pyStartsWith "CONTEXT_NEEDED:" line then
    { a with contextNeeded := pyIn "YES" (pyUpper line) }
  else if pyStartsWith "KEY_TERMS:" line then
    { a with keyTerms :=
        (pySplitOn ',' (pyStrip (pyReplace line "KEY_TERMS:" ""))).map pyStrip }
  else if pyStartsWith "SEARCH_STRATEGY:" line then
    { a with searchStrategy := pyStrip (pyReplace line "SEARCH_STRATEGY:" "") }
  else a

def parseQueryAnalysis (txt : String) : QueryAnalysis :=
  (pySplitOn '\n' txt).foldl parseAnalysisLine defaultParsedAnalysis

/-- `AgentGraph._analyze_query`: parse the LLM's analysis when the call
returns (`some txt`), fall back to the default analysis — key terms are
the raw query tokens — when it raises (`none`). -/
def analyzeQuery (resp : Option String) (query : String) : QueryAnalysis :=
  match resp with
  | some txt => parseQueryAnalysis txt
  | none => { defaultParsedAnalysis with keyTerms := pySplitWs query }

/-! ## Document retrieval (`AgentGraph._retrieve_documents`) -/

/-- The retrieval-query enhancement: when conversation context exists
and the query is judged a follow-up, prefix the analysis key terms, or
failing that the last two user queries. -/
def enhancedQueryFor (history : List Msg) (qa : QueryAnalysis)
    (query context : String) : String :=
  if context ≠ "" ∧ isFollowUp history query then
    if qa.keyTerms ≠ [] then joinSep " " qa.keyTerms ++ " " ++ query
    else joinSep " " (recentUserQueries 2 history) ++ " " ++ query
  else query

/-- The threshold filter applied to the search results:
`result.get("distance", 1.0) >= Config.SIMILARITY_THRESHOLD`. -/
def filterResults (threshold : ℚ) (results : List RDoc) : List RDoc :=
  results.filter (fun r => decide (threshold ≤ r.distance.getD 1))

/-- The behavior of the external collaborators for one query.  Each
field is the outcome of the (at most one) call made at that site:
`some r` is a normal return, `none` a raised exception.  The vector
store's outcome may depend on the search string, and the two LLM chat
calls on the data their prompts are built from (the `SystemPrompts`
builders embed those arguments verbatim into the prompt text).  `randA`
and `randB` resolve the two `random.choice` sites of the clarification
templates. -/
structure Env where
  analyzeResp : String → String → Option String
  searchResp : String → Option (List RDoc)
  genResp : String → String → List RDoc → Option String
  randA : Nat
  randB : Nat

/-- `AgentGraph._retrieve_documents`.  On a normal search return the
results are threshold-filtered; when the search raises, the `except`
branch sets `filtered_results = []`, but the trailing
`"search_results": search_results` then reads a local that was never
assigned, so the node itself raises (`UnboundLocalError`), modeled as
`Except.error`. -/
def retrieveDocuments (env : Env) (history : List Msg) (qa : QueryAnalysis)
    (query context : String) : Except Unit (List RDoc × List RDoc) :=
  match env.searchResp (enhancedQueryFor history qa query context) with
  | some results => Except.ok (filterResults SIMILARITY_THRESHOLD results, results)
  | none => Except.error ()

/-! ## Clarification decision (`AgentGraph._check_clarification_needed`) -/

def ambiguousSingleWords : List String :=
  ["help", "info", "what", "how", "explain", "tell", "show"]

def clarificationRequests : List String :=
  ["can you clarify", "what do you mean", "i don\x27t understand",
   "be more specific", "explain better"]

/-- `AgentGraph._check_clarification_needed`: the `if/elif` decision
list (no documents; short ambiguous query without context; all
documents below the similarity threshold), followed by the independent
explicit-clarification-request check. -/
def checkClarificationNeeded (threshold : ℚ) (query context : String)
    (docs : List RDoc) : Bool :=
  let base :=
    if docs.length = 0 then true
    else if (pySplitWs query).length ≤ MIN_QUERY_WORDS ∧ context = "" then
      decide ((pySplitWs query).length = 1 ∧ pyLower query ∈ ambiguousSingleWords)
    else if ¬ docs.isEmpty then
      docs.all (fun d => decide (d.distance.getD 0 < threshold))
    else false
  base || clarificationRequests.any (fun p => pyIn p (pyLower query))

/-- `AgentGraph._should_clarify`: the conditional-edge router. -/
def shouldClarify (needsClarification : Bool) : String :=
  if needsClarification then "clarify" else "respond"

/-! ## Clarification templates (`prompts/clarification.py`) -/

/-- `random.choice(seq)` resolved by an environment-supplied index: for
a non-empty list this returns one of its elements. -/
def pyChoice (n : Nat) (l : List String) : String := l.getD (n % l.length) ""

def vagueQueryTemplates : List String :=
  ["I\x27d be happy to help! Could you provide more specific details about what you\x27re looking for?",
   "To give you the most accurate answer, could you clarify what specific aspect interests you?",
   "I want to make sure I understand correctly. Could you elaborate on what you\x27d like to know?"]

def multipleTopicsTemplates : List String :=
  ["I found information on several related topics. Which specific area would you like me to focus on?",
   "Your question touches on multiple areas. Could you help me understand your main priority?",
   "I can help with several aspects of this topic. What\x27s your primary interest?"]

def ambiguousContextTemplates : List String :=
  ["I want to give you the most relevant information. Could you provide more context about your situation?",
   "To better assist you, could you share more details about what you\x27re trying to accomplish?",
   "Understanding your specific use case would help me provide a more targeted answer."]

def insufficientInformationTemplates : List String :=
  ["I found limited information on this topic. Could you try rephrasing your question or provide additional context?",
   "The available information seems incomplete. Could you help me understand what specific details you need?",
   "I\x27d like to help, but I need more information to give you a comprehensive answer."]

/-- `BASE_TEMPLATES.get(clarification_type, BASE_TEMPLATES["vague_query"])`. -/
def baseTemplates (t : String) : List String :=
  if t = "vague_query" then vagueQueryTemplates
  else if t = "multiple_topics" then multipleTopicsTemplates
  else if t = "ambiguous_context" then ambiguousContextTemplates
  else if t = "insufficient_information" then insufficientInformationTemplates
  else vagueQueryTemplates

/-- The `QUESTION_TYPES[...]["clarifications"]` template bank (only the
five keys present in the source). -/
def questionTypeClar (w : String) : Option (List String) :=
  if w = "what" then some
    ["What specific aspect of \x7btopic\x7d would you like me to explain?",
     "Are you looking for a definition, explanation, or examples of \x7btopic\x7d?",
     "What level of detail would be most helpful for you?"]
  else if w = "how" then some
    ["Are you looking for step-by-step instructions or a general approach?",
     "What\x27s your current level of experience with \x7btopic\x7d?",
     "Are you trying to \x7baction1\x7d or \x7baction2\x7d?"]
  else if w = "why" then some
    ["Are you interested in the technical reasons or business rationale?",
     "Would you like me to explain the background or focus on current implications?",
     "Are you looking for causes, benefits, or decision factors?"]
  else if w = "when" then some
    ["Are you asking about timing, scheduling, or historical context?",
     "Do you need information about past events or future planning?",
     "Are you looking for deadlines or general timeframes?"]
  else if w = "where" then some
    ["Are you looking for physical locations or system/process locations?",
     "Do you need configuration locations or documentation sources?",
     "Are you asking about organizational or technical placement?"]
  else none

/-- The question words `_analyze_query_for_clarification` detects in the
lowercased query (substring test, fixed order).  That helper also
computes a query length, domain indicators and potential topics, but
`_enhance_clarification` reads only this list. -/
def questionWordsOf (query : String) : List String :=
  ["what", "how", "why", "when", "where", "which", "who"].filter
    (fun w => pyIn w (pyLower query))

/-- The topic list built inside `_enhance_clarification`: distinct
non-empty sources of the first three documents.  (The source checks
membership of the raw source name in a list of transformed names, so
the transformed value is what gets appended.) -/
def enhTopics (docs : List RDoc) : List String :=
  (docs.take 3).foldl (fun acc d =>
    let source := (d.metadata.source).getD ""
    if source ≠ "" ∧ ¬ acc.contains source then
      acc ++ [pyReplace (pyReplace (pyReplace source ".txt" "") ".md" "") "_" " "]
    else acc) []

/-- `", ".join(topics[:-1]) + f", or {last}" if len(topics) > 1 else topics[0]`. -/
def topicOptions (topics : List String) : String :=
  if topics.length > 1 then
    joinSep ", " topics.dropLast ++ ", or " ++ topics.getLastD ""
  else topics.headD ""

/-- `ClarificationTemplates._enhance_clarification`. -/
def enhanceClarification (randB : Nat) (base query : String)
    (docs : List RDoc) : String :=
  let viaTopics : Option String :=
    if docs.length > 1 then
      let topics := enhTopics docs
      if topics ≠ [] then
        some (base ++ "\n\nI found information related to: " ++
          topicOptions topics ++ ". Which area interests you most?")
      else none
    else none
  match viaTopics with
  | some s => s
  | none =>
    match questionWordsOf query with
    | [] => base
    | primary :: _ =>
      match questionTypeClar primary with
      | some clar =>
        base ++ "\n\n" ++
          pyReplace (pyChoice randB clar) "\x7btopic\x7d" "this topic"
      | none => base

/-- `ClarificationTemplates.generate_clarification`.  (The `context`
argument is consumed only by the analysis helper, whose result beyond
the question words is unread.) -/
def genClarification (randA randB : Nat) (query _context ctype : String)
    (docs : List RDoc) : String :=
  enhanceClarification randB (pyChoice randA (baseTemplates ctype)) query docs

/-- `ClarificationTemplates.create_multiple_choice_clarification`. -/
def createMultipleChoice (randA randB : Nat) (options : List String)
    (query : String) : String :=
  if options.length ≤ 1 then genClarification randA randB query "" "vague_query" []
  else
    "I found information on several related topics. Which one would be most helpful?" ++
    "\n\n" ++
    joinSep "\n" (options.enum.map (fun p => toString (p.1 + 1) ++ ". " ++ p.2)) ++
    "\n\nPlease let me know which option interests you, or if you\x27d like information on multiple topics."

/-- The five boolean metrics of
`ClarificationTemplates.validate_clarification_quality`, counted. -/
def qualityMetricCount (c : String) : Nat :=
  (if pyIn "?" c then 1 else 0) +
  (if (pySplitWs c).length > 10 then 1 else 0) +
  (if ["or", "either", "which", "option"].any (fun w => pyIn w (pyLower c)) then 1 else 0) +
  (if ["help", "assist", "clarify", "understand"].any (fun w => pyIn w (pyLower c)) then 1 else 0) +
  (if 20 ≤ (pySplitWs c).length ∧ (pySplitWs c).length ≤ 50 then 1 else 0)

/-- `quality_score >= 0.6` where the score is the fraction of metrics
satisfied. -/
def qualityPassed (c : String) : Bool :=
  decide ((6 : ℚ)/10 ≤ (qualityMetricCount c : ℚ) / 5)

/-- `ClarificationTemplates.get_fallback_clarification`. -/
def fallbackClarification : String :=
  "I want to help you find the right information. Could you try asking your question in a different way, or let me know what specific problem you\x27re trying to solve?"

/-! ## Clarification node (`AgentGraph._generate_clarification`) -/

/-- `"vague_query"` unless overridden by the document count or a
`CONTEXTUAL` clarity mark. -/
def clarificationType (docs : List RDoc) (clarity : String) : String :=
  if docs.length = 0 then "insufficient_information"
  else if docs.length > 3 then "multiple_topics"
  else if clarity = "CONTEXTUAL" then "ambiguous_context"
  else "vague_query"

/-- The `doc_topics` list built inside `_generate_clarification`:
transformed sources of the first three documents, deduplicated on the
transformed name. -/
def docTopics (docs : List RDoc) : List String :=
  (docs.take 3).foldl (fun acc d =>
    let source := (d.metadata.source).getD ""
    if source ≠ "" then
      let topic := pyReplace (pyReplace (pyReplace source ".txt" "") ".md" "") "_" " "
      if acc.contains topic then acc else acc ++ [topic]
    else acc) []

/-- The clarification text `_generate_clarification` computes before the
quality check: a multiple-choice question when more than one distinct
document topic exists, a template-generated question otherwise. -/
def clarCandidate (randA randB : Nat) (query context clarity : String)
    (docs : List RDoc) : String :=
  let ctype := clarificationType docs clarity
  if docs.length > 1 then
    let dt := docTopics docs
    if dt.length > 1 then createMultipleChoice randA randB dt query
    else genClarification randA randB query context ctype docs
  else genClarification randA randB query context ctype docs

/-- `AgentGraph._generate_clarification`: the candidate clarification,
replaced by the fixed fallback when the quality check fails. -/
def generateClarificationNode (randA randB : Nat)
    (query context clarity : String) (docs : List RDoc) : String :=
  let c := clarCandidate randA randB query context clarity docs
  if qualityPassed c then c else fallbackClarification

/-! ## Response node (`AgentGraph._generate_response` and helpers) -/

/-- `SystemPrompts.ERROR_PROMPTS` lookup with its unexpected-error
default. -/
def errorPrompt (t : String) : String :=
  if t = "no_documents" then
    "I couldn\x27t find any relevant documents for your query. Could you try rephrasing your question or providing more specific details?"
  else if t = "llm_error" then
    "I encountered an error while processing your request. Please try asking your question again."
  else if t = "retrieval_error" then
    "I had trouble searching for relevant information. Please try a different question or rephrase your query."
  else if t = "clarification_error" then
    "I\x27m having trouble understanding your question. Could you provide more details or context?"
  else "I encountered an unexpected error."

/-- `SystemPrompts.get_error_response`. -/
def getErrorResponse (t custom : String) : String :=
  if custom ≠ "" then errorPrompt t ++ " " ++ custom else errorPrompt t

/-- The `sources` list of `AgentGraph._add_source_citations`: over
`enumerate(documents[:3], 1)`, append `f"{i}. {source}"` unless the raw
source name is already an element of the (formatted) list. -/
def citeSources : Nat → List RDoc → List String → List String
  | _, [], acc => acc
  | i, d :: ds, acc =>
    let source := (d.metadata.source).getD ("Document " ++ toString i)
    citeSources (i + 1) ds
      (if acc.contains source then acc else acc ++ [toString i ++ ". " ++ source])

/-- `AgentGraph._add_source_citations`. -/
def addSourceCitations (response : String) (documents : List RDoc) : String :=
  if documents.isEmpty then response
  else
    let sources := citeSources 1 (documents.take 3) []
    if sources ≠ [] then
      response ++ "\n\n📚 **Sources:**\n" ++ joinSep "\n" sources
    else response

/-- `AgentGraph._generate_response`: fixed message when no documents
were retrieved; otherwise the LLM answer with citations appended, or
the fixed LLM-error message when the call raises. -/
def generateResponseNode (env : Env) (query context : String)
    (docs : List RDoc) : String :=
  if docs.isEmpty then
    getErrorResponse "no_documents"
      "You might try rephrasing your question or adding more context."
  else
    match env.genResp query context docs with
    | some resp => addSourceCitations resp docs
    | none => getErrorResponse "llm_error" ""

/-! ## The compiled graph (`AgentGraph._build_graph` wiring,
`process_query_sync`) -/

/-- The state dictionary threaded through the graph
(`AgentState` TypedDict). -/
structure AgentState where
  userQuery : String
  conversationContext : String
  retrievedDocuments : List RDoc
  needsClarification : Bool
  clarificationQuestion : String
  finalResponse : String
  iterationCount : Nat
  searchResults : List RDoc
  queryAnalysis : Option QueryAnalysis
deriving Repr

/-- The initial state built by `process_query_sync` / `process_query`. -/
def initialState (q : String) : AgentState :=
  { userQuery := q, conversationContext := "", retrievedDocuments := []
    needsClarification := false, clarificationQuestion := ""
    finalResponse := "", iterationCount := 0, searchResults := []
    queryAnalysis := none }

/-- One run of the compiled graph:
`analyze_query → document_retrieval → clarification_check`,
then the conditional edge `_should_clarify` routes `"clarify"` to
`generate_clarification` and `"respond"` to `generate_response`, both
terminal.  An uncaught exception inside a node surfaces as
`Except.error`. -/
def runGraph (env : Env) (history : List Msg) (st : AgentState) :
    Except Unit AgentState :=
  let context := getConversationContext history
  let qa := analyzeQuery (env.analyzeResp st.userQuery context) st.userQuery
  let st1 := { st with conversationContext := context
                       iterationCount := st.iterationCount + 1
                       searchResults := []
                       queryAnalysis := some qa }
  match retrieveDocuments env history qa st1.userQuery st1.conversationContext with
  | Except.error e => Except.error e
  | Except.ok (filtered, results) =>
    let st2 := { st1 with retrievedDocuments := filtered, searchResults := results }
    let needs := checkClarificationNeeded SIMILARITY_THRESHOLD
      st2.userQuery st2.conversationContext st2.retrievedDocuments
    let st3 := { st2 with needsClarification := needs }
    if shouldClarify st3.needsClarification = "clarify" then
      let c := generateClarificationNode env.randA env.randB
        st3.userQuery st3.conversationContext qa.clarity st3.retrievedDocuments
      Except.ok { st3 with finalResponse := c, clarificationQuestion := c }
    else
      let r := generateResponseNode env st3.userQuery st3.conversationContext
        st3.retrievedDocuments
      Except.ok { st3 with finalResponse := r }

/-- `AgentGraph.process_query_sync` (and the async `process_query`,
which runs the same steps): invoke the graph on the initial state; any
exception escaping the graph is caught and the initial state is
returned with the fixed LLM-error message as `final_response`. -/
def processQuerySync (env : Env) (history : List Msg) (q : String) :
    AgentState :=
  match runGraph env history (initialState q) with
  | Except.ok st => st
  | Except.error _ =>
    { initialState q with finalResponse := getErrorResponse "llm_error" "" }

/-! ## Supporting lemmas -/

theorem str_data_eq_nil {s : String} (h : s.data = []) : s = "" := by
  cases s
  simp_all [String.ext_iff]

theorem str_append_ne_empty_right (s t : String) (h : t ≠ "") : s ++ t ≠ "" := by
  intro hc
  apply h
  have hd : s.data ++ t.data = ([] : List Char) := by
    have h1 := congrArg String.data hc
    rwa [String.data_append] at h1
  exact str_data_eq_nil (List.append_eq_nil.mp hd).2

theorem str_append_ne_empty_left (s t : String) (h : s ≠ "") : s ++ t ≠ "" := by
  intro hc
  apply h
  have hd : s.data ++ t.data = ([] : List Char) := by
    have h1 := congrArg String.data hc
    rwa [String.data_append] at h1
  exact str_data_eq_nil (List.append_eq_nil.mp hd).1

theorem quality_empty_false : qualityPassed "" = false := by
  have h : qualityMetricCount "" = 0 := by decide
  unfold qualityPassed
  rw [h]
  simp only [decide_eq_false_iff_not]
  norm_num

theorem fallback_ne_empty : fallbackClarification ≠ "" := by decide

theorem generateClarificationNode_ne_empty (rA rB : Nat)
    (q ctx cl : String) (docs : List RDoc) :
    generateClarificationNode rA rB q ctx cl docs ≠ "" := by
  show (if qualityPassed (clarCandidate rA rB q ctx cl docs) = true
        then clarCandidate rA rB q ctx cl docs
        else fallbackClarification) ≠ ""
  by_cases h : clarCandidate rA rB q ctx cl docs = ""
  · rw [h, quality_empty_false]
    simpa using fallback_ne_empty
  · split
    · exact h
    · exact fallback_ne_empty

theorem citeSources_length_le (ds : List RDoc) :
    ∀ (i : Nat) (acc : List String), acc.length ≤ (citeSources i ds acc).length := by
  induction ds with
  | nil => intro i acc; simp [citeSources]
  | cons d ds ih =>
    intro i acc
    unfold citeSources
    refine le_trans ?_ (ih (i + 1) _)
    split <;> simp

theorem citeSources_cons_ne_nil (i : Nat) (d : RDoc) (ds : List RDoc) :
    citeSources i (d :: ds) [] ≠ [] := by
  unfold citeSources
  dsimp only
  rw [if_neg (by simp)]
  intro h
  have h1 := citeSources_length_le ds (i + 1)
    ([] ++ [toString i ++ ". " ++ (d.metadata.source).getD ("Document " ++ toString i)])
  rw [h] at h1
  simp at h1

theorem addSourceCitations_ne_empty (r : String) (docs : List RDoc)
    (h : docs ≠ []) : addSourceCitations r docs ≠ "" := by
  unfold addSourceCitations
  rw [if_neg (by simpa [List.isEmpty_iff] using h)]
  cases docs with
  | nil => exact absurd rfl h
  | cons d ds =>
    rw [if_pos (by simpa using citeSources_cons_ne_nil 1 d (ds.take 2))]
    apply str_append_ne_empty_left
    apply str_append_ne_empty_right
    decide

theorem generateResponseNode_ne_empty (env : Env) (q ctx : String)
    (docs : List RDoc) : generateResponseNode env q ctx docs ≠ "" := by
  unfold generateResponseNode
  split
  · decide
  · rename_i hne
    cases hg : env.genResp q ctx docs with
    | none => simp only [hg]; decide
    | some resp =>
      simp only [hg]
      exact addSourceCitations_ne_empty resp docs
        (by simpa [List.isEmpty_iff] using hne)

theorem runGraph_ok_ne_empty (env : Env) (history : List Msg)
    (st res : AgentState) (h : runGraph env history st = Except.ok res) :
    res.finalResponse ≠ "" := by
  unfold runGraph retrieveDocuments at h
  dsimp only at h
  split at h
  all_goals try cases h
  split at h
  all_goals simp only [Except.ok.injEq] at h
  all_goals subst h
  · exact generateClarificationNode_ne_empty _ _ _ _ _ _
  · exact generateResponseNode_ne_empty _ _ _ _

theorem loopChunk_ne_nil (text : List Char) (start bestEnd : Nat) :
    ∀ c ∈ loopChunk text start bestEnd, c ≠ [] := by
  unfold loopChunk
  dsimp only
  split
  · simp
  · rename_i hchunk
    intro c hc
    rw [List.mem_singleton] at hc
    subst hc
    exact hchunk

theorem loopChunk_length_le (text : List Char) (start bestEnd : Nat) :
    (loopChunk text start bestEnd).length ≤ 1 := by
  unfold loopChunk
  dsimp only
  split <;> simp

theorem splitLoop_chunks_ne_nil (text : List Char) (S O : Nat) :
    ∀ start, ∀ c ∈ splitLoop text S O start, c ≠ [] := by
  intro start
  generalize hn : text.length - start = n
  induction n using Nat.strong_induction_on generalizing start with
  | _ n ih =>
    intro c hc
    rw [splitLoop] at hc
    by_cases hs : start < text.length
    · rw [dif_pos hs] at hc
      dsimp only at hc
      split at hc
      · exact loopChunk_ne_nil _ _ _ c hc
      · rw [List.mem_append] at hc
        rcases hc with hc | hc
        · exact loopChunk_ne_nil _ _ _ c hc
        · refine ih _ ?_ _ rfl c hc
          omega
    · rw [dif_neg hs] at hc
      simp at hc

theorem splitLoop_length_le (text : List Char) (S O : Nat) :
    ∀ start, (splitLoop text S O start).length ≤ text.length - start := by
  intro start
  generalize hn : text.length - start = n
  induction n using Nat.strong_induction_on generalizing start with
  | _ n ih =>
    rw [splitLoop]
    by_cases hs : start < text.length
    · rw [dif_pos hs]
      dsimp only
      have h1 := loopChunk_length_le text start (bestEndFor text S start)
      split
      · omega
      · rw [List.length_append]
        have h2 := ih (text.length - (max (start + 1) (bestEndFor text S start - O)))
          (by omega) _ rfl
        omega
    · rw [dif_neg hs]
      simp

theorem lastN_of_length_le {l : List α} {n : Nat} (h : l.length ≤ n) :
    lastN n l = l := by
  unfold lastN
  rw [List.take_of_length_le (by simpa using h), List.reverse_reverse]

theorem lastN_length (n : Nat) (l : List α) :
    (lastN n l).length = min n l.length := by
  simp [lastN]

theorem lastN_lastN {k n : Nat} (h : k ≤ n) (l : List α) :
    lastN k (lastN n l) = lastN k l := by
  unfold lastN
  rw [List.reverse_reverse, List.take_take, min_eq_left h]

theorem lastN_append_of_le {k : Nat} {ms : List α} (X : List α)
    (h : k ≤ ms.length) : lastN k (X ++ ms) = lastN k ms := by
  unfold lastN
  rw [List.reverse_append, List.take_append_of_le_length (by simpa using h)]

theorem lastN_append_of_ge {k : Nat} {ms : List α} (X : List α)
    (h : ms.length ≤ k) :
    lastN k (X ++ ms) = lastN (k - ms.length) X ++ ms := by
  unfold lastN
  rw [List.reverse_append, List.take_append_eq_append_take,
      List.take_of_length_le (by simpa using h)]
  rw [List.reverse_append, List.reverse_reverse, List.length_reverse]

theorem lastN_absorb (k : Nat) (l ms : List α) :
    lastN k (lastN k l ++ ms) = lastN k (l ++ ms) := by
  rcases le_or_lt k ms.length with h | h
  · rw [lastN_append_of_le _ h, lastN_append_of_le _ h]
  · rw [lastN_append_of_ge _ (le_of_lt h), lastN_append_of_ge _ (le_of_lt h),
        lastN_lastN (Nat.sub_le k ms.length)]

theorem addMessage_eq_lastN (maxH : Nat) (hmax : 1 ≤ maxH)
    (acc : List Msg) (m : Msg) :
    addMessage maxH acc m = lastN (maxH * 2) (acc ++ [m]) := by
  unfold addMessage pyTail
  dsimp only
  split
  · rw [if_neg (by omega)]
  · rename_i hle
    rw [lastN_of_length_le (by omega)]

theorem foldl_addMessage (maxH : Nat) (hmax : 1 ≤ maxH) :
    ∀ (msgs acc : List Msg), acc.length ≤ maxH * 2 →
      List.foldl (addMessage maxH) acc msgs = lastN (maxH * 2) (acc ++ msgs) := by
  intro msgs
  induction msgs with
  | nil =>
    intro acc h
    rw [List.foldl_nil, List.append_nil, lastN_of_length_le h]
  | cons m ms ih =>
    intro acc h
    rw [List.foldl_cons]
    have hstep := addMessage_eq_lastN maxH hmax acc m
    have hlen : (addMessage maxH acc m).length ≤ maxH * 2 := by
      rw [hstep, lastN_length]
      exact min_le_left _ _
    rw [ih _ hlen, hstep, lastN_absorb]
    simp [List.append_assoc]

/-! ## Claims -/

/-- Claim C1: for every user query, session history and behavior of the
external LLM client and vector store (each call either returning
normally or raising an exception), `process_query_sync` returns a state
whose `final_response` is a non-empty string; no failure of an external
call propagates out of the router. -/
theorem claim_C1_router_nonempty_response (env : Env) (history : List Msg)
    (q : String) : (processQuerySync env history q).finalResponse ≠ "" := by
  unfold processQuerySync
  split
  · rename_i st heq
    exact runGraph_ok_ne_empty env history _ st heq
  · show getErrorResponse "llm_error" "" ≠ ""
    decide

/-- Claim C2 counterexample: a two-word query with no session context
whose single retrieved document scores below the similarity threshold
is routed to `respond`, not `clarify` — the short-query `elif` branch
shadows the poor-similarity check. -/
theorem claim_C2_counterexample :
    (∀ d ∈ ([⟨"chunk", ⟨none⟩, some (1/10)⟩] : List RDoc),
      d.distance.getD 0 < SIMILARITY_THRESHOLD) ∧
    checkClarificationNeeded SIMILARITY_THRESHOLD "refund policy" ""
      [⟨"chunk", ⟨none⟩, some (1/10)⟩] = false ∧
    shouldClarify (checkClarificationNeeded SIMILARITY_THRESHOLD
      "refund policy" "" [⟨"chunk", ⟨none⟩, some (1/10)⟩]) = "respond" := by
  refine ⟨?_, by decide, by decide⟩
  intro d hd
  rw [List.mem_singleton] at hd
  subst hd
  show (1 : ℚ)/10 < 7/10
  norm_num

/-- Claim C2 (amended): when the retrieved documents are non-empty and
all score below the similarity threshold, `needs_clarification` is set
and the router decides `clarify` — provided the query does not fall
into the preceding short-query branch, i.e. it has more than
`MIN_QUERY_WORDS` words or session context exists. -/
theorem claim_C2_amended (t : ℚ) (q ctx : String) (docs : List RDoc)
    (hne : docs ≠ [])
    (hall : ∀ d ∈ docs, d.distance.getD 0 < t)
    (hbr : MIN_QUERY_WORDS < (pySplitWs q).length ∨ ctx ≠ "") :
    checkClarificationNeeded t q ctx docs = true ∧
    shouldClarify (checkClarificationNeeded t q ctx docs) = "clarify" := by
  have hmain : checkClarificationNeeded t q ctx docs = true := by
    unfold checkClarificationNeeded
    dsimp only
    have h0 : ¬(docs.length = 0) := by simpa [List.length_eq_zero] using hne
    have h1 : ¬((pySplitWs q).length ≤ MIN_QUERY_WORDS ∧ ctx = "") := by
      rcases hbr with h | h
      · intro hc
        exact absurd hc.1 (not_le.mpr h)
      · intro hc
        exact h hc.2
    have h2 : ¬(docs.isEmpty = true) := by simpa [List.isEmpty_iff] using hne
    rw [if_neg h0, if_neg h1, if_pos h2]
    have h3 : docs.all (fun d => decide (d.distance.getD 0 < t)) = true := by
      rw [List.all_eq_true]
      intro d hd
      exact decide_eq_true (hall d hd)
    rw [h3, Bool.true_or]
  exact ⟨hmain, by rw [hmain]; rfl⟩

/-- Claim C2 witness: a three-word query with a below-threshold document
and no context is clarified. -/
theorem claim_C2_amended_witness :
    ([⟨"chunk", ⟨none⟩, some (1/10)⟩] : List RDoc) ≠ [] ∧
    (MIN_QUERY_WORDS < (pySplitWs "where is refunding").length ∨
      ("" : String) ≠ "") ∧
    (checkClarificationNeeded SIMILARITY_THRESHOLD "where is refunding" ""
        [⟨"chunk", ⟨none⟩, some (1/10)⟩] = true ∧
      shouldClarify (checkClarificationNeeded SIMILARITY_THRESHOLD
        "where is refunding" "" [⟨"chunk", ⟨none⟩, some (1/10)⟩]) = "clarify") := by
  refine ⟨by decide, by decide, ?_⟩
  refine claim_C2_amended SIMILARITY_THRESHOLD "where is refunding" ""
    [⟨"chunk", ⟨none⟩, some (1/10)⟩] (by decide) ?_ (by left; decide)
  intro d hd
  rw [List.mem_singleton] at hd
  subst hd
  show (1 : ℚ)/10 < 7/10
  norm_num

/-- Claim C3 counterexample: a document with distance `0.1` — at least
as similar as the `0.7` threshold under the lower-distance-is-more-
similar convention — is discarded by the retrieval filter, which keeps
`distance >= threshold` instead. -/
theorem claim_C3_counterexample :
    (⟨"chunk", ⟨none⟩, some (1/10)⟩ : RDoc).distance.getD 1 ≤
      SIMILARITY_THRESHOLD ∧
    filterResults SIMILARITY_THRESHOLD [⟨"chunk", ⟨none⟩, some (1/10)⟩] = [] := by
  constructor
  · show (1 : ℚ)/10 ≤ 7/10
    norm_num
  · have hd : (decide (SIMILARITY_THRESHOLD ≤
        ((⟨"chunk", ⟨none⟩, some (1/10)⟩ : RDoc).distance.getD 1))) = false := by
      apply decide_eq_false
      show ¬((7 : ℚ)/10 ≤ 1/10)
      norm_num
    unfold filterResults
    rw [List.filter_cons, hd]
    rfl

/-- Claim C3 (amended): the threshold filter retains exactly the
documents whose distance (defaulting to `1.0` when absent) is at least
the threshold; every document with distance below the threshold is
discarded.  The comparison direction is the opposite of the one the
claim states. -/
theorem claim_C3_amended (t : ℚ) (results : List RDoc) (d : RDoc) :
    d ∈ filterResults t results ↔ d ∈ results ∧ t ≤ d.distance.getD 1 := by
  unfold filterResults
  rw [List.mem_filter]
  simp

/-- Claim C4: evaluating `_add_source_citations` on two chunks sharing
the source `a.txt` produces two entries for the same source name — the
`source not in sources` membership test compares the raw name against
already-formatted `"i. name"` entries and so never fires. -/
theorem claim_C4_duplicate_sources :
    citeSources 1 [⟨"c1", ⟨some "a.txt"⟩, some 1⟩,
      ⟨"c2", ⟨some "a.txt"⟩, some 1⟩] [] = ["1. a.txt", "2. a.txt"] ∧
    addSourceCitations "ANSWER" [⟨"c1", ⟨some "a.txt"⟩, some 1⟩,
      ⟨"c2", ⟨some "a.txt"⟩, some 1⟩] =
      "ANSWER\n\n📚 **Sources:**\n1. a.txt\n2. a.txt" := by
  constructor
  · decide
  · decide

/-- Claim C5: with zero retrieved documents `_check_clarification_needed`
always sets `needs_clarification`, and the conditional edge routes to
`generate_clarification` (`"clarify"`), never to `generate_response` —
for every query, context and threshold. -/
theorem claim_C5_no_docs_clarify (t : ℚ) (q ctx : String) :
    checkClarificationNeeded t q ctx [] = true ∧
    shouldClarify (checkClarificationNeeded t q ctx []) = "clarify" := by
  have h : checkClarificationNeeded t q ctx [] = true := by
    unfold checkClarificationNeeded
    simp
  exact ⟨h, by rw [h]; rfl⟩

/-- Claim C6 counterexample: the empty text (chunk size 10, overlap 2)
yields the single chunk `""` — an empty chunk; and the text `"a b"`
(chunk size 2, overlap 0, so there is no overlapped prefix to trim)
splits into `["a", "b"]`, whose concatenation `"ab"` is not the
original text — the whitespace stripped from each chunk is lost. -/
theorem claim_C6_counterexample :
    splitText [] 10 2 = [[]] ∧
    splitText ['a', ' ', 'b'] 2 0 = [['a'], ['b']] ∧
    (splitText ['a', ' ', 'b'] 2 0).flatten ≠ ['a', ' ', 'b'] := by
  have h : splitText ['a', ' ', 'b'] 2 0 = [['a'], ['b']] := by
    simp [splitText, splitLoop, bestEndFor, scanBreak, loopChunk, charAt,
      stripChars, isPyWs, pyWhitespace]
  exact ⟨by decide, h, by rw [h]; decide⟩

/-- Claim C6 (amended): when the text is strictly longer than the chunk
size, every chunk the splitter produces is non-empty (empty stripped
slices are skipped).  Exact reconstruction by concatenation does not
hold in general, because each chunk is whitespace-stripped before being
emitted and the short-text branch returns the text whole even when it
is empty. -/
theorem claim_C6_amended (text : List Char) (S O : Nat)
    (h : S < text.length) : ∀ c ∈ splitText text S O, c ≠ [] := by
  unfold splitText
  rw [if_neg (by omega)]
  exact splitLoop_chunks_ne_nil text S O 0

/-- Claim C6 witness: the chunks of `"a b"` with chunk size 2 are all
non-empty. -/
theorem claim_C6_witness :
    2 < (['a', ' ', 'b'] : List Char).length ∧
    ∀ c ∈ splitText ['a', ' ', 'b'] 2 0, c ≠ [] :=
  ⟨by decide, claim_C6_amended ['a', ' ', 'b'] 2 0 (by decide)⟩

/-- Claim C7 counterexample: with `max_history = 0` the truncation
slice is `[-0:]`, which keeps the whole list, so after one call (more
than `2*0` calls) the stored history is not the most recent
`2*0 = 0` turns and the context window is non-empty. -/
theorem claim_C7_counterexample :
    0 * 2 < ([⟨"user", "hi", "t0", []⟩] : List Msg).length ∧
    List.foldl (addMessage 0) [] [⟨"user", "hi", "t0", []⟩] =
      [⟨"user", "hi", "t0", []⟩] ∧
    List.foldl (addMessage 0) [] [⟨"user", "hi", "t0", []⟩] ≠
      lastN (0 * 2) [⟨"user", "hi", "t0", []⟩] ∧
    getConversationContext
      (List.foldl (addMessage 0) [] [⟨"user", "hi", "t0", []⟩]) ≠ "" := by
  exact ⟨by decide, by decide, by decide, by decide⟩

/-- Claim C7 (amended): for `max_history ≥ 1`, after more than
`2*max_history` calls to `add_message` the stored history is exactly
the most recent `2*max_history` turns, so the conversation context is
computed from only those most recent `max_history` exchanges (of which
it renders the last 6 turns). -/
theorem claim_C7_amended (maxH : Nat) (msgs : List Msg)
    (hmax : 1 ≤ maxH) (hcalls : maxH * 2 < msgs.length) :
    List.foldl (addMessage maxH) [] msgs = lastN (maxH * 2) msgs ∧
    getConversationContext (List.foldl (addMessage maxH) [] msgs) =
      getConversationContext (lastN (maxH * 2) msgs) := by
  have h := foldl_addMessage maxH hmax msgs [] (by simp)
  rw [List.nil_append] at h
  exact ⟨h, by rw [h]⟩

/-- Claim C7 witness: with `max_history = 1`, after three calls the
history is the last two turns. -/
theorem claim_C7_witness :
    (1 : Nat) ≤ 1 ∧
    1 * 2 < ([⟨"user", "q1", "t1", []⟩, ⟨"assistant", "a1", "t2", []⟩,
      ⟨"user", "q2", "t3", []⟩] : List Msg).length ∧
    (List.foldl (addMessage 1) [] [⟨"user", "q1", "t1", []⟩,
        ⟨"assistant", "a1", "t2", []⟩, ⟨"user", "q2", "t3", []⟩] =
      lastN (1 * 2) [⟨"user", "q1", "t1", []⟩, ⟨"assistant", "a1", "t2", []⟩,
        ⟨"user", "q2", "t3", []⟩] ∧
      getConversationContext (List.foldl (addMessage 1) []
        [⟨"user", "q1", "t1", []⟩, ⟨"assistant", "a1", "t2", []⟩,
         ⟨"user", "q2", "t3", []⟩]) =
        getConversationContext (lastN (1 * 2) [⟨"user", "q1", "t1", []⟩,
          ⟨"assistant", "a1", "t2", []⟩, ⟨"user", "q2", "t3", []⟩])) :=
  ⟨le_refl 1, by decide,
    claim_C7_amended 1 [⟨"user", "q1", "t1", []⟩, ⟨"assistant", "a1", "t2", []⟩,
      ⟨"user", "q2", "t3", []⟩] (le_refl 1) (by decide)⟩

/-- Claim C8 counterexample: on the empty text (chunk size 1 > 0,
overlap 0 < 1) the loop runs zero iterations, yet the splitter emits
one chunk — the empty text itself — so the chunk count exceeds the
text length. -/
theorem claim_C8_counterexample :
    (0 : Nat) < 1 ∧ (0 : Nat) < 1 ∧
    ¬((splitText ([] : List Char) 1 0).length ≤ ([] : List Char).length) :=
  ⟨Nat.one_pos, Nat.one_pos, by decide⟩

/-- Claim C8 (amended): the splitter terminates — every loop round
advances the window start by at least one position, so from any start
the loop emits at most `text.length - start` chunks; the total chunk
count is bounded by `max 1 text.length` (the short-text branch returns
one chunk even for the empty text). -/
theorem claim_C8_amended (text : List Char) (S O : Nat)
    (hS : 0 < S) (hO : O < S) :
    (∀ start, (splitLoop text S O start).length ≤ text.length - start) ∧
    (splitText text S O).length ≤ max 1 text.length := by
  refine ⟨splitLoop_length_le text S O, ?_⟩
  unfold splitText
  split
  · simpa using Nat.le_max_left 1 text.length
  · have h := splitLoop_length_le text S O 0
    simp at h ⊢
    omega

/-- Claim C8 witness: splitting `"abc"` with chunk size 2 and overlap 1
produces at most `max 1 3` chunks. -/
theorem claim_C8_witness :
    (0 : Nat) < 2 ∧ (1 : Nat) < 2 ∧
    (splitText ['a', 'b', 'c'] 2 1).length ≤
      max 1 (['a', 'b', 'c'] : List Char).length :=
  ⟨by decide, by decide,
    (claim_C8_amended ['a', 'b', 'c'] 2 1 (by decide) (by decide)).2⟩

/-- Claim C9: exporting a conversation and importing the exported data
restores the exported session id, history and context-memory map, and
the import reports success. -/
theorem claim_C9_export_import_roundtrip (s t : ConvState) (now : String) :
    (importConversation t (exportConversation s now)).1.sessionId =
      s.sessionId ∧
    (importConversation t (exportConversation s now)).1.history =
      s.history ∧
    (importConversation t (exportConversation s now)).1.contextMemory =
      s.contextMemory ∧
    (importConversation t (exportConversation s now)).2 = true :=
  ⟨rfl, rfl, rfl, rfl⟩

/-- Claim C10: with an empty conversation history
`is_follow_up_question` returns `false` for every query — including
queries containing a follow-up indicator phrase or a space-surrounded
context pronoun; the heuristics are consulted only when a turn
exists. -/
theorem claim_C10_empty_history_not_followup (q : String) :
    isFollowUp [] q = false := rfl
